import Mathlib

/-!
Verification of the day-rollover and streak-accounting engine of the
task-assistant program in src/assistant.py.

The embedding below models the JSON session state and the four in-scope
operations as pure Lean functions:

  * `addTask`       — the "add" action of main (lines 127-132);
  * `check_new_day` — the rollover (lines 101-113), with the current date
    injected as a parameter in place of the datetime.date.today() call,
    and the trailing save_tasks side effect left to the caller;
  * `reviewTask` / `runSummary` — the per-task body of the "summary"
    action of main (lines 158-176);
  * `summarySave`   — the tail of the "summary" action (lines 178-180):
    the advice-generator call, then save_tasks; a failing call is modelled
    by `AdviceResult.failure`, in which case the exception propagates and
    the save on line 180 is never reached (main has no handler).

Python dicts become records; a key that may be absent (feedback, reason,
last_updated, and the per-task previous_feedback key read on line 54)
becomes an Option field, so that dict.get with a default is Option.getD.
-/

set_option linter.unusedVariables false

namespace Assistant

/-- A task record, as the dicts stored under the tasks key of tasks.json.
The add action creates records with exactly the five mandatory keys
(line 130); feedback and reason appear after reviews; the
previous_feedback key is read by generate_response (line 54) but is never
written by any in-scope operation, so it is none on every task the
program itself creates. -/
structure Task where
  description : String
  completed : Bool
  repeating : Bool
  streak : Nat
  negative_streak : Nat
  feedback : Option String := none
  reason : Option String := none
  previous_feedback : Option String := none
  deriving Repr, DecidableEq

/-- The session state, as the top-level JSON object: tasks, the global
streak counter, the session-level previous_feedback list, and the
optional last_updated date (absent on first run). -/
structure SessionState where
  tasks : List Task
  streak : Nat
  previous_feedback : List String
  last_updated : Option String := none
  deriving Repr, DecidableEq

/-- The zero-value state load_tasks returns when tasks.json is missing
(lines 30-31). -/
def initialState : SessionState :=
  { tasks := [], streak := 0, previous_feedback := [], last_updated := none }

/-- The record appended by the add action (line 130): completed = false,
streak = 0, negative_streak = 0, no feedback or reason key. The code
performs no validation on the description. -/
def newTask (description : String) (repeating : Bool) : Task :=
  { description := description
    completed := false
    repeating := repeating
    streak := 0
    negative_streak := 0 }

/-- The add action (lines 127-132): append the new record to the task
list. No check of any kind is made on the description. -/
def addTask (data : SessionState) (description : String) (repeating : Bool) :
    SessionState :=
  { data with tasks := data.tasks ++ [newTask description repeating] }

/-- The per-task body of the rollover loop (lines 107-111): a repeating
task first has completed set to false, and then, since the check on
line 110 reads the field just overwritten, negative_streak is always
incremented; a non-repeating task is left untouched. The vacuous
conditional is kept to mirror the source. -/
def rolloverTask (task : Task) : Task :=
  if task.repeating then
    let task1 := { task with completed := false }
    if task1.completed = false then
      { task1 with negative_streak := task1.negative_streak + 1 }
    else task1
  else task

/-- check_new_day (lines 101-113) with the current date injected. If
last_updated equals today the state is returned unchanged; otherwise the
session previous_feedback is snapshotted from the pre-reset tasks
(line 106, with the sentinel for an absent feedback key), every task goes
through the rollover loop, and last_updated is set to today. -/
def check_new_day (data : SessionState) (today : String) : SessionState :=
  if data.last_updated = some today then data
  else
    { data with
      previous_feedback :=
        data.tasks.map (fun task => task.feedback.getD "No feedback provided")
      tasks := data.tasks.map rolloverTask
      last_updated := some today }

/-- One iteration of the summary loop for one task (lines 158-176): a
non-empty feedback string overwrites the feedback key; completion
increments streak and zeroes negative_streak; non-completion zeroes
streak, increments negative_streak and sets reason to the feedback, or
to the sentinel when the feedback is empty. -/
def reviewTask (task : Task) (completed : Bool) (feedback : String) : Task :=
  let task1 :=
    if feedback = "" then task else { task with feedback := some feedback }
  if completed then
    { task1 with
      completed := true
      streak := task1.streak + 1
      negative_streak := 0 }
  else
    { task1 with
      completed := false
      streak := 0
      negative_streak := task1.negative_streak + 1
      reason := some (if feedback = "" then "no reason provided" else feedback) }

/-- The summary loop over the whole task list, pairing each task with the
answers the user gives for it (one completion flag and one feedback
string per task, in order). -/
def reviewAll : List Task → List (Bool × String) → List Task
  | [], _ => []
  | task :: tasks, [] => task :: tasks
  | task :: tasks, (c, f) :: rest => reviewTask task c f :: reviewAll tasks rest

/-- The summary action applied to the session state: every task reviewed
in order (lines 158-176). -/
def runSummary (data : SessionState) (inputs : List (Bool × String)) :
    SessionState :=
  { data with tasks := reviewAll data.tasks inputs }

/-- Outcome of the advice-generator call on line 178: the returned text,
or a raised exception (network, quota, malformed response). -/
inductive AdviceResult where
  | ok (text : String) : AdviceResult
  | failure : AdviceResult
  deriving Repr, DecidableEq

/-- The tail of the summary action (lines 178-180): after the reviews
have mutated the state, generate_response is called and then save_tasks.
The result is the state handed to save_tasks, or none when no save
happens: main has no try/except, so a raised exception on line 178
propagates and the save on line 180 is never executed. -/
def summarySave (data : SessionState) (inputs : List (Bool × String))
    (advice : AdviceResult) : Option SessionState :=
  let reviewed := runSummary data inputs
  match advice with
  | AdviceResult.ok _ => some reviewed
  | AdviceResult.failure => none

/-- The previous-day feedback generate_response prints for a task
(line 54): it reads the previous_feedback key of the task dict itself,
with the sentinel as default. -/
def prevFeedbackShown (task : Task) : String :=
  task.previous_feedback.getD "No previous feedback"

/-- The per-task report built by generate_response (lines 50-59),
including the escalation lines for a positive negative_streak and for a
negative_streak above the threshold 3. -/
def taskReport (task : Task) : String :=
  let base :=
    "Task: " ++ task.description ++ "\n" ++
    "Current Streak: " ++ toString task.streak ++ " days\n" ++
    "Feedback: " ++ task.feedback.getD "No feedback provided" ++ "\n" ++
    "Previous Feedback: " ++ prevFeedbackShown task
  if task.negative_streak > 0 then
    let withCount := base ++ "\nTask Uncompleted for: " ++
      toString task.negative_streak ++ " days in a row"
    if task.negative_streak > 3 then
      withCount ++ "\nSpecial Attention: This task has been uncompleted for a long time. Help the user break it into manageable chunks to get started again."
    else withCount
  else base

/-- The task_reports list built by generate_response (lines 48-60). The
streak, previous_feedback and goals parameters mirror the Python
signature (line 47); the session-level previous_feedback is accepted but
never read by the function body. -/
def generate_response_reports (tasks : List Task) (streak : Nat)
    (previous_feedback : List String) (goals : List String) : List String :=
  tasks.map taskReport

/-- The previous-day feedback for the task at position i as the spec
describes it: taken from the session-level previous_feedback sequence by
positional index, with the sentinel only when no entry exists at that
position. Stated from the spec for comparison with prevFeedbackShown,
which is what the code computes. -/
def claimPrevFeedbackAt (previous_feedback : List String) (i : Nat) : String :=
  (previous_feedback.get? i).getD "No previous feedback"

/-- One in-scope operation on the session state: add, rollover, or a
summary review of the whole task list (with one answer pair per task, as
the interactive loop supplies). -/
inductive Step : SessionState → SessionState → Prop where
  | add (s : SessionState) (description : String) (repeating : Bool) :
      Step s (addTask s description repeating)
  | rollover (s : SessionState) (today : String) :
      Step s (check_new_day s today)
  | review (s : SessionState) (inputs : List (Bool × String))
      (hlen : inputs.length = s.tasks.length) :
      Step s (runSummary s inputs)

/-- States reachable from the zero-value state by the in-scope
operations. -/
inductive Reachable : SessionState → Prop where
  | init : Reachable initialState
  | step (s s' : SessionState) : Reachable s → Step s s' → Reachable s'

/-- Day 1 of the scenario in the spec: rollover on an empty first-run
state. -/
def s_day1 : SessionState := check_new_day initialState "2024-01-01"

/-- The repeating task Exercise added on day 1. -/
def s_added : SessionState := addTask s_day1 "Exercise" true

/-- Day-1 summary review answering completed = true with no feedback. -/
def s_reviewed : SessionState := runSummary s_added [(true, "")]

/-- The rollover to day 2. -/
def s_day2 : SessionState := check_new_day s_reviewed "2024-01-02"

/-- Variant of the day-1 review in which the user types the feedback
string did ok for the Exercise task. -/
def s_fb_reviewed : SessionState := runSummary s_added [(true, "did ok")]

/-- The rollover to day 2 after the did ok review: the session
previous_feedback snapshot becomes the singleton did ok list. -/
def s_fb_day2 : SessionState := check_new_day s_fb_reviewed "2024-01-02"

/-- A rollover always leaves last_updated equal to the supplied date:
either it was already equal, or the else branch sets it. -/
theorem check_new_day_last_updated (s : SessionState) (today : String) :
    (check_new_day s today).last_updated = some today := by
  unfold check_new_day
  split
  · assumption
  · rfl

/-- A rollover invoked on a state whose last_updated already equals the
supplied date is a no-op. -/
theorem check_new_day_noop (s : SessionState) (today : String)
    (h : s.last_updated = some today) : check_new_day s today = s := by
  unfold check_new_day
  simp [h]

/-- Claim C2: rollover is idempotent. Applying check_new_day twice with
the same date yields the same state as applying it once, and an
invocation on a state whose last_updated equals the supplied date (every
such state is a last_updated update of itself) returns the state
unchanged. -/
theorem check_new_day_idempotent (s : SessionState) (today : String) :
    check_new_day (check_new_day s today) today = check_new_day s today ∧
    check_new_day { s with last_updated := some today } today
      = { s with last_updated := some today } := by
  constructor
  · exact check_new_day_noop _ _ (check_new_day_last_updated s today)
  · exact check_new_day_noop _ _ rfl

/-- Claim C3: on a rollover whose date differs from last_updated, every
repeating task is sent through rolloverTask, which sets completed to
false and increments negative_streak by exactly one, unconditionally:
since completed is reset before the line-110 check reads it, the
increment happens regardless of prior completion, which is the
observable content of the reset-first-then-increment order. -/
theorem rollover_repeating_reset_then_increment (s : SessionState)
    (today : String) (hdate : ¬ s.last_updated = some today)
    (t : Task) (ht : t ∈ s.tasks) (hrep : t.repeating = true) :
    (rolloverTask t).completed = false ∧
    (rolloverTask t).negative_streak = t.negative_streak + 1 ∧
    rolloverTask t ∈ (check_new_day s today).tasks := by
  refine ⟨?_, ?_, ?_⟩
  · unfold rolloverTask; simp [hrep]
  · unfold rolloverTask; simp [hrep]
  · unfold check_new_day
    simp only [if_neg hdate]
    exact List.mem_map_of_mem rolloverTask ht

/-- Witness for claim C3 at the concrete day-1 state: the Exercise task
is repeating and the state was last updated on 2024-01-01. -/
theorem rollover_repeating_reset_then_increment_witness :
    (rolloverTask (newTask "Exercise" true)).completed = false ∧
    (rolloverTask (newTask "Exercise" true)).negative_streak
      = (newTask "Exercise" true).negative_streak + 1 ∧
    rolloverTask (newTask "Exercise" true)
      ∈ (check_new_day s_added "2024-01-02").tasks :=
  rollover_repeating_reset_then_increment s_added "2024-01-02" (by decide)
    (newTask "Exercise" true) (by decide) (by decide)

/-- Claim C6: review semantics. Reviewing with completed = true sets
completed, increments streak and zeroes negative_streak; reviewing with
completed = false clears completed, zeroes streak, increments
negative_streak and sets reason to the feedback when it is non-empty and
to the sentinel when it is empty. -/
theorem review_semantics (t : Task) (f : String) :
    (reviewTask t true f).completed = true ∧
    (reviewTask t true f).streak = t.streak + 1 ∧
    (reviewTask t true f).negative_streak = 0 ∧
    (reviewTask t false f).completed = false ∧
    (reviewTask t false f).streak = 0 ∧
    (reviewTask t false f).negative_streak = t.negative_streak + 1 ∧
    (reviewTask t false f).reason
      = some (if f = "" then "no reason provided" else f) := by
  unfold reviewTask
  by_cases hf : f = "" <;> simp [hf]

/-- Claim C7: a non-repeating task is entirely untouched by rollover:
rolloverTask is the identity on it (so completed, streak and
negative_streak are all unchanged), and the task survives into the
rolled-over state as is. -/
theorem rollover_nonrepeating_frame (s : SessionState) (today : String)
    (t : Task) (ht : t ∈ s.tasks) (hrep : t.repeating = false) :
    rolloverTask t = t ∧ t ∈ (check_new_day s today).tasks := by
  have hid : rolloverTask t = t := by
    unfold rolloverTask; simp [hrep]
  refine ⟨hid, ?_⟩
  unfold check_new_day
  split
  · exact ht
  · exact hid ▸ List.mem_map_of_mem rolloverTask ht

/-- Witness for claim C7 at a concrete state holding one non-repeating
task named Read. -/
theorem rollover_nonrepeating_frame_witness :
    rolloverTask (newTask "Read" false) = newTask "Read" false ∧
    newTask "Read" false
      ∈ (check_new_day (addTask initialState "Read" false) "2024-01-02").tasks :=
  rollover_nonrepeating_frame (addTask initialState "Read" false) "2024-01-02"
    (newTask "Read" false) (by decide) (by decide)

/-- Claim C10: a review with completed = true never writes the reason
field, and neither does rollover, so a reason acquired when the task was
once marked incomplete persists across later completed reviews and
rollovers. -/
theorem reason_stale_after_completion (t : Task) (f : String) :
    (reviewTask t true f).reason = t.reason ∧
    (rolloverTask t).reason = t.reason := by
  constructor
  · unfold reviewTask
    by_cases hf : f = "" <;> simp [hf]
  · unfold rolloverTask
    by_cases hr : t.repeating <;> simp [hr]

/-- A review leaves the reviewed task with streak and negative_streak
never simultaneously positive: completion zeroes negative_streak,
non-completion zeroes streak. -/
theorem review_min_zero (t : Task) (c : Bool) (f : String) :
    min (reviewTask t c f).streak (reviewTask t c f).negative_streak = 0 := by
  unfold reviewTask
  cases c <;> by_cases hf : f = "" <;> simp [hf]

/-- The rollover loop body preserves the relaxed exclusivity invariant:
either the two counters are not simultaneously positive, or the task is
a repeating one currently marked incomplete. -/
theorem rollover_relaxed_inv (t : Task)
    (h : min t.streak t.negative_streak = 0 ∨
      (t.repeating = true ∧ t.completed = false)) :
    min (rolloverTask t).streak (rolloverTask t).negative_streak = 0 ∨
    ((rolloverTask t).repeating = true ∧ (rolloverTask t).completed = false) := by
  by_cases hr : t.repeating
  · refine Or.inr ?_
    unfold rolloverTask
    simp [hr]
  · have hid : rolloverTask t = t := by unfold rolloverTask; simp [hr]
    rw [hid]
    exact h

/-- Every task of a summary result is either an untouched original task
or the review of some task. -/
theorem mem_reviewAll (ts : List Task) (inputs : List (Bool × String))
    (t : Task) (ht : t ∈ reviewAll ts inputs) :
    t ∈ ts ∨ ∃ t0 c f, t = reviewTask t0 c f := by
  induction ts generalizing inputs with
  | nil => simp [reviewAll] at ht
  | cons head tail ih =>
    cases inputs with
    | nil =>
      rw [reviewAll] at ht
      exact Or.inl ht
    | cons p rest =>
      obtain ⟨c, f⟩ := p
      rw [reviewAll] at ht
      rcases List.mem_cons.mp ht with h | h
      · exact Or.inr ⟨head, c, f, h⟩
      · rcases ih rest h with h2 | h2
        · exact Or.inl (List.mem_cons_of_mem _ h2)
        · exact Or.inr h2

/-- Claim C1 (amended): in every state reachable by the in-scope
operations, every task has min streak negative_streak = 0 unless it is a
repeating task currently marked incomplete — the one shape a
date-changing rollover produces from a previously completed repeating
task, whose streak survives while negative_streak is incremented. -/
theorem reachable_streak_exclusivity_relaxed (s : SessionState)
    (hs : Reachable s) (t : Task) (ht : t ∈ s.tasks) :
    min t.streak t.negative_streak = 0 ∨
    (t.repeating = true ∧ t.completed = false) := by
  induction hs generalizing t with
  | init => simp [initialState] at ht
  | step s1 s2 h1 hstep ih =>
    cases hstep with
    | add d r =>
      rw [addTask] at ht
      simp only [List.mem_append, List.mem_singleton] at ht
      rcases ht with h | h
      · exact ih t h
      · subst h
        simp [newTask]
    | rollover today =>
      rw [check_new_day] at ht
      split at ht
      · exact ih t ht
      · simp only [List.mem_map] at ht
        obtain ⟨t0, ht0, rfl⟩ := ht
        exact rollover_relaxed_inv t0 (ih t0 ht0)
    | review inputs hlen =>
      rw [runSummary] at ht
      rcases mem_reviewAll s1.tasks inputs t ht with h | h
      · exact ih t h
      · obtain ⟨t0, c, f, rfl⟩ := h
        exact Or.inl (review_min_zero t0 c f)

/-- The day-2 scenario state is reachable: rollover on the first run,
add Exercise, review it completed, rollover to the next day. -/
theorem reachable_s_day2 : Reachable s_day2 :=
  Reachable.step s_reviewed s_day2
    (Reachable.step s_added s_reviewed
      (Reachable.step s_day1 s_added
        (Reachable.step initialState s_day1 Reachable.init
          (Step.rollover initialState "2024-01-01"))
        (Step.add s_day1 "Exercise" true))
      (Step.review s_added [(true, "")] (by decide)))
    (Step.rollover s_reviewed "2024-01-02")

/-- Claim C1 fails as stated: the reachable day-2 scenario state holds a
task with streak = 1 and negative_streak = 1. -/
theorem streak_exclusivity_counterexample :
    ¬ (∀ s : SessionState, Reachable s →
        ∀ t ∈ s.tasks, min t.streak t.negative_streak = 0) := by
  intro h
  have h2 := h s_day2 reachable_s_day2
    (rolloverTask (reviewTask (newTask "Exercise" true) true "")) (by decide)
  revert h2
  decide

/-- Witness for the amended claim C1 at the reachable day-2 state and
its single task. -/
theorem reachable_streak_exclusivity_relaxed_witness :
    min (rolloverTask (reviewTask (newTask "Exercise" true) true "")).streak
      (rolloverTask (reviewTask (newTask "Exercise" true) true "")).negative_streak
      = 0 ∨
    ((rolloverTask (reviewTask (newTask "Exercise" true) true "")).repeating
      = true ∧
     (rolloverTask (reviewTask (newTask "Exercise" true) true "")).completed
      = false) :=
  reachable_streak_exclusivity_relaxed s_day2 reachable_s_day2
    (rolloverTask (reviewTask (newTask "Exercise" true) true "")) (by decide)

/-- Claim C4 fails as stated: in the scenario, the day-1 review leaves
the repeating task with streak = 1 and negative_streak = 0, and the
rollover to day 2 does set completed to false, but negative_streak does
not stay 0 — line 110 reads the completed flag just reset on line 109,
so the increment fires. -/
theorem day2_negative_streak_counterexample :
    s_reviewed.tasks.map (fun t => (t.streak, t.negative_streak)) = [(1, 0)] ∧
    s_day2.tasks.map Task.completed = [false] ∧
    ¬ s_day2.tasks.map Task.negative_streak = [0] := by decide

/-- Claim C4 (amended): the rollover to day 2 sets completed to false
and increments negative_streak from 0 to 1, the increment applying even
though the task was completed on day 1, because completed is reset
before the incompleteness check reads it. -/
theorem day2_negative_streak_incremented :
    s_reviewed.tasks.map (fun t => (t.completed, t.streak, t.negative_streak))
      = [(true, 1, 0)] ∧
    s_day2.tasks.map (fun t => (t.completed, t.streak, t.negative_streak))
      = [(false, 1, 1)] := by decide

/-- Claim C5: at the failing input — the session state after a did ok
review and a rollover, whose session-level previous_feedback snapshot is
the singleton did ok — the report shows the sentinel for the task, since
line 54 reads the never-written per-task previous_feedback key, while
the spec value taken from the session sequence at index 0 is did ok; and
the reports are wholly insensitive to the session-level previous_feedback
argument of generate_response. -/
theorem previous_feedback_read_from_task_key :
    s_fb_day2.previous_feedback = ["did ok"] ∧
    claimPrevFeedbackAt s_fb_day2.previous_feedback 0 = "did ok" ∧
    s_fb_day2.tasks.map prevFeedbackShown = ["No previous feedback"] ∧
    generate_response_reports s_fb_day2.tasks s_fb_day2.streak
        s_fb_day2.previous_feedback []
      = generate_response_reports s_fb_day2.tasks s_fb_day2.streak [] [] := by
  refine ⟨by decide, by decide, by decide, rfl⟩

/-- Claim C8 fails as stated: when the advice-generator call raises, the
summary branch performs no save — main has no handler, so the exception
skips the save_tasks call on line 180 and the review mutations are not
persisted. -/
theorem summary_save_on_failure_counterexample :
    ¬ summarySave s_added [(true, "done")] AdviceResult.failure
      = some (runSummary s_added [(true, "done")]) := by
  intro h
  simp [summarySave] at h

/-- Claim C8 (amended): the summary branch saves the reviewed state only
when the advice-generator call succeeds; a failing call yields no save
at all, losing the review mutations unless something saved them
earlier. -/
theorem summary_save_requires_advice (data : SessionState)
    (inputs : List (Bool × String)) :
    summarySave data inputs AdviceResult.failure = none ∧
    ∀ text, summarySave data inputs (AdviceResult.ok text)
      = some (runSummary data inputs) :=
  ⟨rfl, fun _ => rfl⟩

/-- Claim C9 fails as stated: adding a task with an empty description is
not rejected — the state is mutated, gaining a record whose description
is empty. -/
theorem add_empty_description_counterexample :
    ¬ addTask initialState "" true = initialState ∧
    (addTask initialState "" true).tasks.map Task.description = [""] := by
  constructor
  · intro h
    have h2 := congrArg (fun s => s.tasks.length) h
    simp [addTask, initialState] at h2
  · decide

/-- Claim C9 (amended): the add action performs no validation at all on
the description — any string, the empty one included, is appended as a
fresh record with completed = false, streak = 0 and negative_streak = 0,
and the task count always grows by one. -/
theorem add_no_validation (s : SessionState) (d : String) (r : Bool) :
    (addTask s d r).tasks = s.tasks ++ [newTask d r] ∧
    (addTask s "" r).tasks.length = s.tasks.length + 1 := by
  constructor
  · rfl
  · simp [addTask]

end Assistant
